import Mathlib

/-
Verification of the session/auth lifecycle, API gateway and screen logic of
the ais-bookstore-client mobile application, as a shallow embedding in Lean.

Sources embedded:
  - src/context/AuthContext.tsx   (loadAuthState, login, register, logout)
  - src/services/api.ts           (axios instance defaults, request interceptor)
  - src/app/screens/MyBooksScreen.tsx and src/app/(tabs)/profile.tsx
                                  (handleReturnBook, handleSaveProfile)
  - src/app/(tabs)/library.tsx and src/unnamed/part_001, part_002 (groupBooks)
  - src/types/index.ts            (Book, User records)

Asynchronous effects are embedded by passing each network or storage
operation outcome as an explicit argument (Except for fallible calls), and
React state updates become explicit state passing over a SessionState
record.  Persisted AsyncStorage is a single Option String cell holding the
value under the fixed key "token".
-/

namespace Bookstore

/-- The User record held by the session manager (AuthContext.tsx lines 6-10). -/
structure User where
  id : String
  name : String
  email : String
deriving DecidableEq, Repr

/-- The Book record (src/types/index.ts).  Field names follow the source. -/
structure Book where
  _id : String
  title : String
  author : String
  description : String
  publication_year : Int
  genre0 : String
  genre1 : String
  cover_image : String
  isAvailable : Bool
  borrowedDate : Option String
  dueDate : Option String
  loanId : Option String
deriving DecidableEq, Repr

/-- The in-memory session state of AuthProvider: the three useState cells
isAuthenticated, user, loading (AuthContext.tsx lines 27-29). -/
structure SessionState where
  isAuthenticated : Bool
  user : Option User
  loading : Bool
deriving DecidableEq, Repr

/-- The initial session state at process start:
useState(false), useState(null), useState(true). -/
def initialSession : SessionState :=
  { isAuthenticated := false, user := none, loading := true }

/-- A runtime error value as observed by a catch block: either an axios
error carrying an optional HTTP response status (axios.isAxiosError true,
error.response?.status), or any other thrown value. -/
inductive JsError where
  | axios (status : Option Nat)
  | other
deriving DecidableEq, Repr

/-- Persisted AsyncStorage restricted to the single key "token": none when
no token is stored, some t when the string t is stored under "token". -/
abbrev TokenStorage := Option String

deriving instance DecidableEq for Except

/-- The outcomes of the three awaited effects inside login/register
(AuthContext.tsx lines 50-69 and 71-90): the credential post returning a
token on success, the AsyncStorage.setItem persist step, and the
GET /auth/me profile fetch returning the user record on success. -/
structure LoginEnv where
  post : Except JsError String
  persist : Except JsError Unit
  fetchMe : Except JsError User
deriving DecidableEq, Repr

/-- Result of one session-manager operation: the new in-memory session, the
new persisted token cell, and the error message re-thrown to the caller
(none when the operation resolved). -/
structure OpResult where
  session : SessionState
  storage : TokenStorage
  thrown : Option String
deriving DecidableEq, Repr

/-- The bootstrap effect loadAuthState (AuthContext.tsx lines 31-45), run
once at mount on the current session state: read the persisted token; if
present, fetch the profile, set user then isAuthenticated on success; on
any thrown error remove the token; finally clear loading.  The fetchMe
argument is the outcome GET /auth/me would have (consulted only when a
token is present). -/
def loadAuthState (s : SessionState) (storage : TokenStorage)
    (fetchMe : Except JsError User) : SessionState × TokenStorage :=
  match storage with
  | none => ({ s with loading := false }, storage)
  | some _ =>
    match fetchMe with
    | Except.ok u =>
      ({ isAuthenticated := true, user := some u, loading := false }, storage)
    | Except.error _ => ({ s with loading := false }, none)

/-- The catch-block classification in login (AuthContext.tsx lines 60-65):
an axios error whose response status is exactly 400 is re-thrown as
"Invalid email or password"; every other error as the generic message. -/
def classifyLoginError : JsError → String
  | JsError.axios (some 400) => "Invalid email or password"
  | _ => "Login failed. Please try again."

/-- login(email, password) (AuthContext.tsx lines 50-69).  setLoading(true);
then POST /auth/login, AsyncStorage.setItem("token", ...), GET /auth/me in
order, stopping at the first failure, whose error is classified and
re-thrown; on full success set user and isAuthenticated; finally
setLoading(false).  A persist failure leaves the storage cell unwritten;
note the catch block never removes an already-persisted token. -/
def login (s : SessionState) (storage : TokenStorage) (env : LoginEnv) :
    OpResult :=
  match env.post with
  | Except.error e =>
    { session := { s with loading := false }, storage := storage
      thrown := some (classifyLoginError e) }
  | Except.ok tok =>
    match env.persist with
    | Except.error e =>
      { session := { s with loading := false }, storage := storage
        thrown := some (classifyLoginError e) }
    | Except.ok _ =>
      match env.fetchMe with
      | Except.error e =>
        { session := { s with loading := false }, storage := some tok
          thrown := some (classifyLoginError e) }
      | Except.ok u =>
        { session := { isAuthenticated := true, user := some u, loading := false }
          storage := some tok, thrown := none }

/-- The error value that reaches the catch block of login, whichever
awaited step failed first: the credential post, the persist, or the
profile fetch (none when every step succeeded and no error is caught).
This mirrors the try-block control flow of AuthContext.tsx lines 52-59,
whose single catch receives the first failure regardless of step. -/
def loginCaughtError (env : LoginEnv) : Option JsError :=
  match env.post with
  | Except.error e => some e
  | Except.ok _ =>
    match env.persist with
    | Except.error e => some e
    | Except.ok _ =>
      match env.fetchMe with
      | Except.error e => some e
      | Except.ok _ => none

/-- register(name, email, password) (AuthContext.tsx lines 71-90): same
shape as login, but every failure is re-thrown as "Registration failed". -/
def register (s : SessionState) (storage : TokenStorage) (env : LoginEnv) :
    OpResult :=
  match env.post with
  | Except.error _ =>
    { session := { s with loading := false }, storage := storage
      thrown := some "Registration failed" }
  | Except.ok tok =>
    match env.persist with
    | Except.error _ =>
      { session := { s with loading := false }, storage := storage
        thrown := some "Registration failed" }
    | Except.ok _ =>
      match env.fetchMe with
      | Except.error _ =>
        { session := { s with loading := false }, storage := some tok
          thrown := some "Registration failed" }
      | Except.ok u =>
        { session := { isAuthenticated := true, user := some u, loading := false }
          storage := some tok, thrown := none }

/-- logout (AuthContext.tsx lines 92-96): AsyncStorage.removeItem("token"),
setUser(null), setIsAuthenticated(false).  The loading cell is untouched. -/
def logout (s : SessionState) (_storage : TokenStorage) :
    SessionState × TokenStorage :=
  ({ isAuthenticated := false, user := none, loading := s.loading }, none)

/-- One session-manager operation together with the outcomes of the
asynchronous effects it performs. -/
inductive Op where
  | bootstrap (fetchMe : Except JsError User)
  | login (env : LoginEnv)
  | register (env : LoginEnv)
  | logout
deriving DecidableEq, Repr

/-- Run one operation on (session, storage), discarding any thrown error. -/
def step (st : SessionState × TokenStorage) (op : Op) :
    SessionState × TokenStorage :=
  match op with
  | Op.bootstrap fr => loadAuthState st.1 st.2 fr
  | Op.login env =>
    let r := login st.1 st.2 env
    (r.session, r.storage)
  | Op.register env =>
    let r := register st.1 st.2 env
    (r.session, r.storage)
  | Op.logout => logout st.1 st.2

/-- Run a sequence of session operations from the initial state with empty
token storage. -/
def runOps (ops : List Op) : SessionState × TokenStorage :=
  ops.foldl step (initialSession, none)

/-! ### API gateway (src/services/api.ts) -/

/-- The header-relevant part of an outbound axios request config: whether
config.data is a FormData instance, and the Authorization and Content-Type
headers (none when the header is absent). -/
structure Config where
  isFormData : Bool
  authorization : Option String
  contentType : Option String
deriving DecidableEq, Repr

/-- The request config as it enters the request interceptor for a request
issued with no per-call header overrides: axios merges the instance
defaults of axios.create (api.ts lines 6-12), which set the header
Content-Type: application/json, into every outgoing config. -/
def defaultConfig (isFormData : Bool) : Config :=
  { isFormData := isFormData
    authorization := none
    contentType := some "application/json" }

/-- The request interceptor (api.ts lines 14-26): read the persisted token;
if present set config.headers.Authorization to the Bearer credential; if
config.data is not a FormData instance force Content-Type to
application/json; return the config. -/
def requestInterceptor (storage : TokenStorage) (c : Config) : Config :=
  let c1 :=
    match storage with
    | some tok => { c with authorization := some ("Bearer " ++ tok) }
    | none => c
  if c1.isFormData then c1
  else { c1 with contentType := some "application/json" }

/-- The full client-side request preparation for a request with no per-call
header overrides: instance defaults followed by the request interceptor,
as a function of the persisted token at the moment of dispatch. -/
def dispatchConfig (storage : TokenStorage) (isFormData : Bool) : Config :=
  requestInterceptor storage (defaultConfig isFormData)

/-! ### Borrow/return screens -/

/-- Observable local-list states across one handleReturnBook run
(MyBooksScreen.tsx lines 72-99; identically src/app/(tabs)/profile.tsx
lines 110-139 over borrowedBooks): duringRequest is the local books list
while the POST /books/:id/return call is awaited and not yet resolved,
final is the local list after the handler finished, and
reconciliationFetch records whether the catch path re-ran the
borrowed-list fetch. -/
structure ReturnTrace where
  duringRequest : List Book
  final : List Book
  reconciliationFetch : Bool
deriving DecidableEq, Repr

/-- handleReturnBook(bookId): setReturningBookId; await the return post —
the local list is only updated AFTER this await resolves successfully, by
filtering out the book; on a thrown error, show a toast and re-run
fetchBooks, whose outcome (refetch) replaces the list when it succeeds and
leaves the list unchanged when it fails. -/
def handleReturnBook (books : List Book) (bookId : String)
    (post : Except JsError Unit) (refetch : Except JsError (List Book)) :
    ReturnTrace :=
  { duringRequest := books
    final :=
      match post with
      | Except.ok _ => books.filter (fun b => b._id != bookId)
      | Except.error _ =>
        match refetch with
        | Except.ok server => server
        | Except.error _ => books
    reconciliationFetch :=
      match post with
      | Except.ok _ => false
      | Except.error _ => true }

/-! ### Profile save (src/app/(tabs)/profile.tsx, handleSaveProfile) -/

/-- The members the AuthContext provider actually supplies to consumers of
useAuth (AuthContext.tsx: interface AuthContextType lines 12-19 and the
value passed to AuthContext.Provider). -/
def authContextProvidedMembers : List String :=
  ["isAuthenticated", "user", "login", "register", "logout", "loading"]

/-- Whether useAuth supplies an updateUser function.  profile.tsx
destructures updateUser from useAuth(), but the provider supplies no such
member, so at the call site updateUser is undefined. -/
def updateUserProvided : Bool :=
  authContextProvidedMembers.contains "updateUser"

/-- Outcome of one handleSaveProfile run: the session user record after the
run, and which of the two toasts was shown. -/
structure SaveResult where
  sessionUser : Option User
  errorShown : Bool
  successShown : Bool
deriving DecidableEq, Repr

/-- handleSaveProfile (profile.tsx lines 147-202): when a new image was
picked, POST the FormData upload first, re-throwing a failure; then PUT
/auth/me with the edited fields; on success call updateUser(response.data)
— a call on a member useAuth does not provide (updateUserProvided = false),
which throws at runtime and lands in the catch, so the success branch with
the replaced user is reachable only if the context did provide updateUser;
any caught error shows the failure toast and leaves the session user
unchanged. -/
def handleSaveProfile (sessionUser : Option User) (tempImage : Option String)
    (upload : Except JsError String) (put : Except JsError User) :
    SaveResult :=
  let applyUpdate : SaveResult :=
    match put with
    | Except.error _ =>
      { sessionUser := sessionUser, errorShown := true, successShown := false }
    | Except.ok u =>
      if updateUserProvided then
        { sessionUser := some u, errorShown := false, successShown := true }
      else
        { sessionUser := sessionUser, errorShown := true, successShown := false }
  match tempImage with
  | none => applyUpdate
  | some _ =>
    match upload with
    | Except.error _ =>
      { sessionUser := sessionUser, errorShown := true, successShown := false }
    | Except.ok _ => applyUpdate

/-! ### Library screen row grouping -/

/-- groupBooks (library.tsx lines 126-132; identically src/unnamed/part_001
lines 68-74 and src/unnamed/part_002 lines 56-62): the loop pushes
books.slice(i, i + groupSize) for i = 0, groupSize, 2*groupSize, ...; each
iteration emits the next groupSize-chunk (take) and the loop continues on
the remaining suffix (drop).  For groupSize = 0 the source loop does not
terminate; the embedding returns [] there, outside the claimed domain. -/
def groupBooks (books : List Book) (groupSize : Nat) : List (List Book) :=
  if h : books = [] ∨ groupSize = 0 then []
  else books.take groupSize :: groupBooks (books.drop groupSize) groupSize
termination_by books.length
decreasing_by
  simp only [not_or] at h
  have hlen : 0 < books.length := List.length_pos.mpr h.1
  have hg : 0 < groupSize := Nat.pos_of_ne_zero h.2
  simp only [List.length_drop]
  omega

/-! ### Concrete values used by counterexamples and witnesses -/

/-- A concrete anonymous session (after a finished bootstrap with no token). -/
def anonSession : SessionState :=
  { isAuthenticated := false, user := none, loading := false }

/-- A concrete user record, as in the spec scenario of section 8. -/
def demoUser : User := { id := "u1", name := "Ada", email := "a@x.com" }

/-- The same user after a profile edit. -/
def updatedUser : User := { id := "u1", name := "Ada L.", email := "a@x.com" }

/-- A login environment in which the credential post and the token persist
succeed but the subsequent profile fetch fails. -/
def envFetchFails : LoginEnv :=
  { post := Except.ok "tok123", persist := Except.ok ()
    fetchMe := Except.error JsError.other }

/-- A login environment in which the credential post is rejected with
HTTP status 400. -/
def envPost400 : LoginEnv :=
  { post := Except.error (JsError.axios (some 400)), persist := Except.ok ()
    fetchMe := Except.error JsError.other }

/-- A login environment in which the credential post is rejected with
HTTP status 422, a 400-class status other than 400. -/
def envPost422 : LoginEnv :=
  { post := Except.error (JsError.axios (some 422)), persist := Except.ok ()
    fetchMe := Except.error JsError.other }

/-- A login environment in which the credential post and the persist
succeed and the profile fetch is rejected with HTTP status 400. -/
def envFetch400 : LoginEnv :=
  { post := Except.ok "tokB", persist := Except.ok ()
    fetchMe := Except.error (JsError.axios (some 400)) }

/-- A login environment in which every step succeeds. -/
def envOk : LoginEnv :=
  { post := Except.ok "tokA", persist := Except.ok ()
    fetchMe := Except.ok demoUser }

/-- A concrete borrowed book used in the return-flow evaluation. -/
def bookX : Book :=
  { _id := "x1", title := "X", author := "A", description := ""
    publication_year := 2020, genre0 := "Fiction", genre1 := ""
    cover_image := "", isAvailable := false
    borrowedDate := some "2026-01-01", dueDate := some "2026-02-01"
    loanId := some "l1" }

/-- A small helper to build distinct books for the grouping witness. -/
def mkBook (i : String) : Book :=
  { _id := i, title := i, author := "A", description := ""
    publication_year := 2021, genre0 := "", genre1 := ""
    cover_image := "", isAvailable := true
    borrowedDate := none, dueDate := none, loanId := none }

/-- Five concrete books for the grouping witness. -/
def demoBooks : List Book :=
  [mkBook "b1", mkBook "b2", mkBook "b3", mkBook "b4", mkBook "b5"]

/-! ### Claim theorems -/

/-- C1: bootstrap (loadAuthState) is a total function of the persisted
token and the profile-fetch outcome.  From the initial state: with a
stored token and a successful fetch it ends Authenticated with that user
and the token still stored; with a stored token and any fetch failure it
removes the token and ends Anonymous; with no stored token it ends
Anonymous with storage untouched (the fetch outcome is never consulted);
and in every case the loading flag ends false. -/
theorem loadAuthState_total_function (t : String) (u : User) (e : JsError)
    (fr : Except JsError User) :
    loadAuthState initialSession (some t) (Except.ok u) =
      ({ isAuthenticated := true, user := some u, loading := false }, some t) ∧
    loadAuthState initialSession (some t) (Except.error e) =
      ({ isAuthenticated := false, user := none, loading := false }, none) ∧
    loadAuthState initialSession none fr =
      ({ isAuthenticated := false, user := none, loading := false }, none) := by
  exact ⟨rfl, rfl, rfl⟩

/-- C5: the request interceptor attaches Authorization: Bearer t exactly
when the persisted storage holds token t at dispatch, attaches no
Authorization header when storage is empty, and any request dispatched
against the storage left by logout carries no bearer token. -/
theorem interceptor_bearer_iff_token (t : String) (f : Bool)
    (s : SessionState) (st : TokenStorage) :
    (dispatchConfig (some t) f).authorization = some ("Bearer " ++ t) ∧
    (dispatchConfig none f).authorization = none ∧
    (dispatchConfig (logout s st).2 f).authorization = none := by
  refine ⟨?_, ?_, ?_⟩ <;> cases f <;> rfl

/-- C8: logout is idempotent on session states: one application from any
state yields the Anonymous state with cleared storage, and a second
application from that resulting state yields the same result. -/
theorem logout_idempotent (s : SessionState) (st : TokenStorage) :
    (logout s st).1.isAuthenticated = false ∧
    (logout s st).1.user = none ∧
    (logout s st).2 = none ∧
    logout (logout s st).1 (logout s st).2 = logout s st := by
  exact ⟨rfl, rfl, rfl, rfl⟩

/-- C3 evaluation: in handleReturnBook the local borrowed list is NOT
updated before the server responds — while the return post is in flight
the list still contains the book (duringRequest keeps bookX in both the
failing and the succeeding run); the removal happens only after a
successful response, and a failed call triggers the reconciliation fetch,
whose result replaces the list. -/
theorem handleReturnBook_not_optimistic :
    (handleReturnBook [bookX] "x1" (Except.error JsError.other)
      (Except.ok [bookX])).duringRequest = [bookX] ∧
    (handleReturnBook [bookX] "x1" (Except.ok ())
      (Except.ok [])).duringRequest = [bookX] ∧
    (handleReturnBook [bookX] "x1" (Except.ok ())
      (Except.ok [])).final = [] ∧
    (handleReturnBook [bookX] "x1" (Except.error JsError.other)
      (Except.ok [bookX])).final = [bookX] ∧
    (handleReturnBook [bookX] "x1" (Except.error JsError.other)
      (Except.ok [bookX])).reconciliationFetch = true := by
  refine ⟨rfl, rfl, ?_, rfl, rfl⟩
  decide

/-- C7 evaluation: the AuthContext provider supplies no updateUser member,
so even when the image upload and the PUT /auth/me request both succeed,
handleSaveProfile never replaces the session user record and shows the
failure toast instead of the success toast; and on an upload failure the
session user record is likewise unchanged. -/
theorem handleSaveProfile_never_replaces_user :
    updateUserProvided = false ∧
    (handleSaveProfile (some demoUser) none (Except.ok "unused")
      (Except.ok updatedUser)).sessionUser = some demoUser ∧
    (handleSaveProfile (some demoUser) none (Except.ok "unused")
      (Except.ok updatedUser)).successShown = false ∧
    (handleSaveProfile (some demoUser) none (Except.ok "unused")
      (Except.ok updatedUser)).errorShown = true ∧
    (handleSaveProfile (some demoUser) (some "img.jpg")
      (Except.error JsError.other)
      (Except.ok updatedUser)).sessionUser = some demoUser := by
  decide

/-- C9 counterexample: a FormData request with no per-call overrides still
leaves client-side request preparation with Content-Type application/json,
because the axios instance was created with that default header; the
preparation step therefore does impose a JSON content type on FormData
payloads, refuting the claim as stated. -/
theorem formdata_contentType_counterexample :
    (dispatchConfig none true).contentType = some "application/json" := rfl

/-- C9 amended: the request interceptor itself forces Content-Type to
application/json exactly for non-FormData bodies and leaves the field of
the incoming config untouched for FormData bodies; but since the instance
default header is application/json, every dispatched request (FormData
included) leaves client-side preparation with the JSON content type. -/
theorem contentType_preparation (storage : TokenStorage) (c : Config)
    (f : Bool) :
    (requestInterceptor storage c).contentType =
      (if c.isFormData then c.contentType else some "application/json") ∧
    (dispatchConfig storage f).contentType = some "application/json" := by
  obtain ⟨fd, auth, ct⟩ := c
  cases storage <;> cases fd <;> cases f <;> exact ⟨rfl, rfl⟩

/-- C2 counterexample: a failing login execution in which the credential
post and the token persist succeed but the profile fetch fails leaves the
in-memory session Anonymous yet keeps the freshly persisted token in
storage — a token persisted without an Authenticated in-memory session,
refuting the consistency half of the claim. -/
theorem login_inconsistent_commit_counterexample :
    (login anonSession none envFetchFails).thrown =
      some "Login failed. Please try again." ∧
    (login anonSession none envFetchFails).session.isAuthenticated = false ∧
    (login anonSession none envFetchFails).session.user = none ∧
    (login anonSession none envFetchFails).storage = some "tok123" := by
  exact ⟨rfl, rfl, rfl, rfl⟩

/-- C2 amended: every failing login execution leaves the in-memory session
unchanged (so it remains Anonymous when it was Anonymous); persisted
storage is unchanged when the failure occurs at the credential post or at
the persist step, but when those two steps succeed and only the profile
fetch fails, the newly returned token remains persisted, so storage can
hold a token while the in-memory session is Anonymous. -/
theorem login_failure_inmemory_uncommitted (s : SessionState)
    (st : TokenStorage) (env : LoginEnv)
    (h : (login s st env).thrown ≠ none) :
    (login s st env).session.isAuthenticated = s.isAuthenticated ∧
    (login s st env).session.user = s.user ∧
    ((login s st env).storage = st ∨
      ∃ tok, env.post = Except.ok tok ∧ env.persist = Except.ok () ∧
        env.fetchMe.isOk = false ∧ (login s st env).storage = some tok) := by
  obtain ⟨post, persist, fetchMe⟩ := env
  cases post with
  | error e => exact ⟨rfl, rfl, Or.inl rfl⟩
  | ok tok =>
    cases persist with
    | error e => exact ⟨rfl, rfl, Or.inl rfl⟩
    | ok u =>
      cases fetchMe with
      | error e => exact ⟨rfl, rfl, Or.inr ⟨tok, rfl, rfl, rfl, rfl⟩⟩
      | ok u2 => exact absurd rfl h

/-- Witness for the amended C2 theorem at the concrete failing
environment envFetchFails. -/
theorem login_failure_inmemory_uncommitted_witness :
    (login anonSession none envFetchFails).session.isAuthenticated =
      anonSession.isAuthenticated ∧
    (login anonSession none envFetchFails).session.user = anonSession.user ∧
    ((login anonSession none envFetchFails).storage = none ∨
      ∃ tok, envFetchFails.post = Except.ok tok ∧
        envFetchFails.persist = Except.ok () ∧
        envFetchFails.fetchMe.isOk = false ∧
        (login anonSession none envFetchFails).storage = some tok) :=
  login_failure_inmemory_uncommitted anonSession none envFetchFails
    (by decide)

/-- C6 counterexample: the claim as stated fails at two concrete inputs.
First, HTTP status 422 is a 400-class status, yet when the credential post
is rejected with 422 the code throws the generic message rather than the
bad-credentials message.  Second, a profile-fetch failure carrying axios
status 400 is not a credential-post rejection, so under the claim it would
be surfaced as the generic error — but the single catch classifies it by
status and throws the bad-credentials message, and since it happens after
the persist step it also leaves the freshly persisted token in storage. -/
theorem login_400class_counterexample :
    400 ≤ 422 ∧ 422 < 500 ∧
    (login anonSession none envPost422).thrown =
      some "Login failed. Please try again." ∧
    (login anonSession none envPost422).thrown ≠
      some "Invalid email or password" ∧
    (login anonSession none envFetch400).thrown =
      some "Invalid email or password" ∧
    (login anonSession none envFetch400).thrown ≠
      some "Login failed. Please try again." ∧
    (login anonSession none envFetch400).storage = some "tokB" := by
  exact ⟨by decide, by decide, rfl, by decide, rfl, by decide, rfl⟩

/-- The catch-block classification written out over the error value and
the well-known message strings. -/
theorem classifyLoginError_eq (e : JsError) :
    classifyLoginError e =
      (if e = JsError.axios (some 400) then "Invalid email or password"
       else "Login failed. Please try again.") := by
  cases e with
  | other => rfl
  | axios s =>
    cases s with
    | none => rfl
    | some n =>
      rcases eq_or_ne n 400 with hn | hn
      · subst hn; rfl
      · simp [classifyLoginError, hn]

/-- C6 amended: for every failing execution of login the single catch
block classifies whatever error reached it, whichever awaited step failed:
the thrown message is the distinct bad-credentials error (Invalid email or
password) exactly when the caught error is an axios error with response
status precisely 400 (so in particular a credential-post rejection with
status exactly 400, but also a profile-fetch failure with status 400), and
the generic failure message for every other caught error (other 4xx
statuses such as 422, response-less axios errors, non-axios errors).  The
in-memory user record and authentication flag are unmutated on every
failure; the persisted token is unmutated exactly when the failure
occurred at the credential post or the persist step, while a failure after
those two steps succeeded leaves the freshly persisted token in storage. -/
theorem login_error_classification (s : SessionState) (st : TokenStorage)
    (env : LoginEnv) (e : JsError) (h : loginCaughtError env = some e) :
    (login s st env).session.user = s.user ∧
    (login s st env).session.isAuthenticated = s.isAuthenticated ∧
    (login s st env).thrown =
      some (if e = JsError.axios (some 400) then "Invalid email or password"
            else "Login failed. Please try again.") ∧
    ((env.post.isOk && env.persist.isOk) = false →
      (login s st env).storage = st) ∧
    (∀ tok, env.post = Except.ok tok → env.persist = Except.ok () →
      (login s st env).storage = some tok) := by
  obtain ⟨post, persist, fetchMe⟩ := env
  cases post with
  | error e2 =>
    injection h with he
    subst he
    refine ⟨rfl, rfl, by show some (classifyLoginError e2) = _; rw [classifyLoginError_eq], fun _ => rfl, ?_⟩
    intro tok htok _hper
    exact Except.noConfusion htok
  | ok tok =>
    cases persist with
    | error e2 =>
      injection h with he
      subst he
      refine ⟨rfl, rfl, by show some (classifyLoginError e2) = _; rw [classifyLoginError_eq], fun _ => rfl, ?_⟩
      intro tok2 _htok hper
      exact Except.noConfusion hper
    | ok pu =>
      cases fetchMe with
      | error e2 =>
        injection h with he
        subst he
        refine ⟨rfl, rfl, by show some (classifyLoginError e2) = _; rw [classifyLoginError_eq], ?_, ?_⟩
        · intro hbad
          exact Bool.noConfusion hbad
        · intro tok2 htok _hper
          injection htok with htk
          subst htk
          rfl
      | ok u2 => exact Option.noConfusion h

/-- Witness for the amended C6 theorem at a concrete rejection of the
credential post with status 400. -/
theorem login_error_classification_witness :
    (login anonSession none envPost400).session.user = anonSession.user ∧
    (login anonSession none envPost400).session.isAuthenticated =
      anonSession.isAuthenticated ∧
    (login anonSession none envPost400).thrown =
      some (if JsError.axios (some 400) = JsError.axios (some 400) then
              "Invalid email or password"
            else "Login failed. Please try again.") ∧
    ((envPost400.post.isOk && envPost400.persist.isOk) = false →
      (login anonSession none envPost400).storage = none) ∧
    (∀ tok, envPost400.post = Except.ok tok →
      envPost400.persist = Except.ok () →
      (login anonSession none envPost400).storage = some tok) :=
  login_error_classification anonSession none envPost400
    (JsError.axios (some 400)) rfl

/-- The session invariant: an authenticated session holds a user record. -/
def SessionInv (s : SessionState) : Prop :=
  s.isAuthenticated = true → s.user ≠ none

/-- Every single session operation preserves the session invariant, in all
of its success and failure outcomes. -/
theorem step_preserves_inv (st : SessionState × TokenStorage) (op : Op)
    (h : SessionInv st.1) : SessionInv (step st op).1 := by
  obtain ⟨s, stor⟩ := st
  cases op with
  | bootstrap fr =>
    cases stor with
    | none => exact h
    | some t =>
      cases fr with
      | ok u => exact fun _ => Option.some_ne_none u
      | error e => exact h
  | login env =>
    obtain ⟨post, persist, fetchMe⟩ := env
    cases post with
    | error e => exact h
    | ok tok =>
      cases persist with
      | error e => exact h
      | ok u =>
        cases fetchMe with
        | error e => exact h
        | ok u2 => exact fun _ => Option.some_ne_none u2
  | register env =>
    obtain ⟨post, persist, fetchMe⟩ := env
    cases post with
    | error e => exact h
    | ok tok =>
      cases persist with
      | error e => exact h
      | ok u =>
        cases fetchMe with
        | error e => exact h
        | ok u2 => exact fun _ => Option.some_ne_none u2
  | logout => exact fun hx => absurd hx (by simp [logout, step])

/-- The invariant is preserved along any fold of session operations. -/
theorem foldl_preserves_inv (ops : List Op) (st : SessionState × TokenStorage)
    (h : SessionInv st.1) : SessionInv (ops.foldl step st).1 := by
  induction ops generalizing st with
  | nil => exact h
  | cons op rest ih => exact ih (step st op) (step_preserves_inv st op h)

/-- C4: in every state reachable from the initial state (isAuthenticated
false, user null, empty storage) by any sequence of bootstrap, login,
register and logout operations in any of their success or failure
outcomes, isAuthenticated = true implies the user record is non-null. -/
theorem session_invariant_reachable (ops : List Op)
    (h : (runOps ops).1.isAuthenticated = true) :
    (runOps ops).1.user ≠ none := by
  have hinit : SessionInv initialSession := by
    intro hx
    simp [initialSession] at hx
  exact foldl_preserves_inv ops (initialSession, none) hinit h

/-- Witness for C4 at the concrete one-operation sequence of a fully
successful login. -/
theorem session_invariant_reachable_witness :
    (runOps [Op.login envOk]).1.isAuthenticated = true ∧
    (runOps [Op.login envOk]).1.user ≠ none :=
  ⟨by decide, session_invariant_reachable [Op.login envOk] (by decide)⟩

/-- groupBooks on the empty list is the empty list of rows. -/
theorem groupBooks_nil (g : Nat) : groupBooks [] g = [] := by
  unfold groupBooks
  simp

/-- Unfolding equation of groupBooks off the empty/zero cases. -/
theorem groupBooks_cons (bs : List Book) (g : Nat) (hbs : bs ≠ [])
    (hg : g ≠ 0) :
    groupBooks bs g = bs.take g :: groupBooks (bs.drop g) g := by
  rw [groupBooks]
  exact dif_neg (not_or.mpr ⟨hbs, hg⟩)

/-- Bounded-length induction giving the partition facts of groupBooks:
flattening the rows restores the list, every row but the last has length
exactly g, no row is empty, and a non-empty list yields at least one row. -/
theorem groupBooks_parts (n : Nat) : ∀ (bs : List Book), bs.length ≤ n →
    ∀ (g : Nat), g ≠ 0 →
    (groupBooks bs g).flatten = bs ∧
    (∀ r ∈ (groupBooks bs g).dropLast, r.length = g) ∧
    (∀ r ∈ groupBooks bs g, r ≠ []) ∧
    (bs ≠ [] → groupBooks bs g ≠ []) := by
  induction n with
  | zero =>
    intro bs hb g hg
    have hbs : bs = [] := List.eq_nil_of_length_eq_zero (Nat.le_zero.mp hb)
    subst hbs
    refine ⟨by simp [groupBooks_nil], by simp [groupBooks_nil],
      by simp [groupBooks_nil], fun hx => absurd rfl hx⟩
  | succ n ih =>
    intro bs hb g hg
    by_cases hbs : bs = []
    · subst hbs
      refine ⟨by simp [groupBooks_nil], by simp [groupBooks_nil],
        by simp [groupBooks_nil], fun hx => absurd rfl hx⟩
    · have hlen : 0 < bs.length := List.length_pos.mpr hbs
      have hgpos : 0 < g := Nat.pos_of_ne_zero hg
      have hdrop : (bs.drop g).length ≤ n := by
        simp only [List.length_drop]
        omega
      obtain ⟨ih1, ih2, ih3, ih4⟩ := ih (bs.drop g) hdrop g hg
      rw [groupBooks_cons bs g hbs hg]
      refine ⟨?_, ?_, ?_, ?_⟩
      · rw [List.flatten_cons, ih1, List.take_append_drop]
      · by_cases hrest : bs.drop g = []
        · rw [hrest, groupBooks_nil]
          simp
        · have hne : groupBooks (bs.drop g) g ≠ [] := ih4 hrest
          rw [List.dropLast_cons_of_ne_nil hne]
          intro r hr
          rcases List.mem_cons.mp hr with hr | hr
          · subst hr
            have hglt : g < bs.length := by
              by_contra hge
              exact hrest (List.drop_eq_nil_iff.mpr (Nat.le_of_not_lt hge))
            rw [List.length_take]
            omega
          · exact ih2 r hr
      · intro r hr
        rcases List.mem_cons.mp hr with hr | hr
        · subst hr
          intro htake
          rcases List.take_eq_nil_iff.mp htake with hx | hx
          · exact hg hx
          · exact hbs hx
        · exact ih3 r hr
      · exact fun _ => List.cons_ne_nil _ _

/-- C10: for every list of books and every group size g greater than 0,
groupBooks partitions the list in order: concatenating the returned rows
yields exactly the input, every row except possibly the last has exactly g
elements, the last row is non-empty whenever the input is non-empty (no
row is ever empty and a non-empty input yields at least one row), and the
empty input yields the empty list of rows. -/
theorem groupBooks_partitions (bs : List Book) (g : Nat) (hg : 0 < g) :
    (groupBooks bs g).flatten = bs ∧
    (∀ r ∈ (groupBooks bs g).dropLast, r.length = g) ∧
    (∀ r ∈ groupBooks bs g, r ≠ []) ∧
    (bs ≠ [] → groupBooks bs g ≠ []) ∧
    (∀ r, (groupBooks bs g).getLast? = some r → r ≠ []) ∧
    (bs = [] → groupBooks bs g = []) := by
  obtain ⟨h1, h2, h3, h4⟩ :=
    groupBooks_parts bs.length bs le_rfl g (Nat.pos_iff_ne_zero.mp hg)
  refine ⟨h1, h2, h3, h4, ?_, ?_⟩
  · exact fun r hr => h3 r (List.mem_of_mem_getLast? hr)
  · intro he
    subst he
    exact groupBooks_nil g

/-- Witness for C10 at the concrete five-book list with group size 2. -/
theorem groupBooks_partitions_witness :
    (groupBooks demoBooks 2).flatten = demoBooks ∧
    (∀ r ∈ (groupBooks demoBooks 2).dropLast, r.length = 2) ∧
    (∀ r ∈ groupBooks demoBooks 2, r ≠ []) ∧
    (demoBooks ≠ [] → groupBooks demoBooks 2 ≠ []) ∧
    (∀ r, (groupBooks demoBooks 2).getLast? = some r → r ≠ []) ∧
    (demoBooks = [] → groupBooks demoBooks 2 = []) :=
  groupBooks_partitions demoBooks 2 (by decide)

end Bookstore
